import Mathlib

/-!
Verification of the go-simple-etcd-client wrapper (src/etcdclient/etcdclient.go).

The wrapper is pass-through glue over the etcd v2 client library: every public
method issues one or two requests to the external store and translates errors.
We embed each method body as a Lean function parameterized on the result that
the corresponding api call returned, and compose those bodies with a small
in-memory model of the external store (modelled from the spec, section 6)
where a claim is about state across calls.
-/

set_option autoImplicit false

namespace EtcdSimple

/-- A Go error value as the wrapper observes it: either an etcd client error
carrying a numeric code (the only shape the wrapper inspects, via
client.IsKeyNotFound and the type switch in shouldIgnoreError), or any other
error value. -/
inductive GoError where
  | clientError (code : Nat) (message : String)
  | other (message : String)
  deriving DecidableEq, Repr

/-- etcd client error code 100, ErrorCodeKeyNotFound. -/
def ErrorCodeKeyNotFound : Nat := 100

/-- etcd client error code 401, ErrorCodeEventIndexCleared. -/
def ErrorCodeEventIndexCleared : Nat := 401

/-- client.IsKeyNotFound: true exactly when the error is a client.Error with
Code equal to ErrorCodeKeyNotFound. -/
def IsKeyNotFound : GoError → Bool
  | .clientError code _ => code == ErrorCodeKeyNotFound
  | .other _ => false

/-- shouldIgnoreError from etcdclient.go lines 204-211: a type switch that
returns true only for a client.Error whose Code is ErrorCodeEventIndexCleared,
false for every other error. -/
def shouldIgnoreError : GoError → Bool
  | .clientError code _ => code == ErrorCodeEventIndexCleared
  | .other _ => false

/-- client.Node: a node of the store tree, with its full key, its value,
whether it is a directory, and its child nodes. -/
inductive Node where
  | mk (key : String) (value : String) (dir : Bool) (nodes : List Node)

/-- The Key field of a node. -/
def Node.key : Node → String
  | .mk k _ _ _ => k

/-- The Value field of a node. -/
def Node.value : Node → String
  | .mk _ v _ _ => v

/-- The Dir field of a node. -/
def Node.dir : Node → Bool
  | .mk _ _ d _ => d

/-- The Nodes field of a node: its children. -/
def Node.nodes : Node → List Node
  | .mk _ _ _ ns => ns

/-- client.Response, restricted to the two fields the wrapper reads:
Node and Index (the index used as the watch cursor). -/
structure Response where
  node : Node
  index : Nat

/-- nodesToStringSlice from etcdclient.go lines 190-202: for each node, append
its Key and then every key that the recursive call on its children produced,
in order. The Go for-loop with append is rendered as the equivalent
structural recursion. -/
def nodesToStringSlice : List Node → List String
  | [] => []
  | .mk k _ _ ns :: rest => k :: (nodesToStringSlice ns ++ nodesToStringSlice rest)

/-- Get from etcdclient.go lines 89-99, as a function of the result of its
single api.Get call: a not-found error is suppressed to an empty-value
success, any other error yields the empty string and the error, and a
successful response yields response.Node.Value. -/
def Get : Except GoError Response → String × Option GoError
  | .error e => if IsKeyNotFound e then ("", none) else ("", some e)
  | .ok response => (response.node.value, none)

/-- Set from etcdclient.go lines 102-106: the error of the api.Set call is
returned unchanged. -/
def Set (apiSetErr : Option GoError) : Option GoError :=
  apiSetErr

/-- UpdateDirWithTTL from etcdclient.go lines 109-113: the error of the
api.Set call (made with TTL, Dir true and PrevExist) is returned unchanged. -/
def UpdateDirWithTTL (apiSetErr : Option GoError) : Option GoError :=
  apiSetErr

/-- Del from etcdclient.go lines 65-74, as a function of the error of its
api.Delete call: a not-found error is suppressed to nil, anything else is
returned as is. -/
def Del : Option GoError → Option GoError
  | some e => if IsKeyNotFound e then none else some e
  | none => none

/-- DelDir from etcdclient.go lines 77-86: the same error handling as Del;
the call differs only in the DeleteOptions it passes to the store. -/
def DelDir : Option GoError → Option GoError
  | some e => if IsKeyNotFound e then none else some e
  | none => none

/-- Ls from etcdclient.go lines 116-129, as a function of the result of its
api.Get call: not-found becomes an empty list and no error, any other error
becomes an empty list and the error, and a response is flattened with
nodesToStringSlice over response.Node.Nodes. -/
def Ls : Except GoError Response → List String × Option GoError
  | .error e => if IsKeyNotFound e then ([], none) else ([], some e)
  | .ok response => (nodesToStringSlice response.node.nodes, none)

/-- LsRecursive from etcdclient.go lines 132-145: identical result handling to
Ls; the call differs only in passing Recursive true to the store. -/
def LsRecursive : Except GoError Response → List String × Option GoError
  | .error e => if IsKeyNotFound e then ([], none) else ([], some e)
  | .ok response => (nodesToStringSlice response.node.nodes, none)

/-- client.GetOptions, the two fields the wrapper sets. -/
structure GetOptions where
  sort : Bool := false
  recursive : Bool := false

/-- The GetOptions Ls passes to the store: Sort true, Recursive false. -/
def lsOptions : GetOptions := { sort := true, recursive := false }

/-- The GetOptions LsRecursive passes to the store: Sort true, Recursive
true. -/
def lsRecursiveOptions : GetOptions := { sort := true, recursive := true }

/-- The outcome of running the WatchRecursive loop against a finite prefix of
the results that watcher.Next delivered: either the loop returned with an
error, or it consumed the whole prefix and is still running, holding its
current afterIndex cursor and the list of (key, value) pairs the callback was
invoked with, in order. -/
inductive WatchOutcome where
  | returned (e : GoError)
  | running (afterIndex : Nat) (calls : List (String × String))
  deriving DecidableEq, Repr

/-- The body of the for-loop of WatchRecursive (etcdclient.go lines 175-187),
run over a finite prefix of the results of the successive watcher.Next calls.
Each iteration recreates the watcher with WatcherOptions carrying Recursive
true and the current afterIndex, so the Nat argument is exactly the cursor the
next wait starts from. An error satisfying shouldIgnoreError makes the loop
continue with the cursor unchanged; any other error is returned; a response
sets the cursor to response.Index and then invokes the callback with
response.Node.Key and response.Node.Value. -/
def watchLoop : List (Except GoError Response) → Nat → List (String × String) → WatchOutcome
  | [], afterIndex, calls => .running afterIndex calls
  | .error e :: rest, afterIndex, calls =>
      if shouldIgnoreError e then watchLoop rest afterIndex calls
      else .returned e
  | .ok response :: rest, _, calls =>
      watchLoop rest response.index (calls ++ [(response.node.key, response.node.value)])

/-- WatchRecursive from etcdclient.go lines 171-188: the loop started with
afterIndex zero and no callback invocations yet. -/
def WatchRecursive (events : List (Except GoError Response)) : WatchOutcome :=
  watchLoop events 0 []

mutual

/-- Spec-side depth-first pre-order of one node, following the words of the
spec: the key of the node before the keys of its children. -/
def preorderNode : Node → List String
  | .mk k _ _ ns => k :: preorderForest ns

/-- Spec-side depth-first pre-order of a forest, following the words of the
spec: each tree fully enumerated before its next sibling. -/
def preorderForest : List Node → List String
  | [] => []
  | n :: rest => preorderNode n ++ preorderForest rest

end

/-- Modelled from the spec: a store entry is either a leaf holding a scalar
value or a directory, which may carry a TTL; the store enforces that a key is
one or the other, never both. -/
inductive Entry where
  | leaf (value : String)
  | dir (ttl : Option Nat)
  deriving DecidableEq, Repr

/-- Modelled from the spec: the external store, kept as a flat association
from keys to entries. The hierarchical children of a directory play no role
in the state-dependent claims, so they are not tracked here; tree-shaped
responses are handled by the response-level definitions above. -/
abbrev Store : Type := List (String × Entry)

/-- First entry bound to the key, if any. -/
def storeLookup : Store → String → Option Entry
  | [], _ => none
  | (k, e) :: rest, key => if k = key then some e else storeLookup rest key

/-- Remove every binding of the key. -/
def storeRemove (s : Store) (key : String) : Store :=
  s.filter (fun kv => kv.1 ≠ key)

/-- client.PrevExistType: the PrevExist field of SetOptions. -/
inductive PrevExistType where
  | prevIgnore
  | prevExist
  | prevNoExist
  deriving DecidableEq, Repr

/-- client.SetOptions, the three fields the wrapper sets. -/
structure SetOptions where
  ttl : Option Nat := none
  dir : Bool := false
  prevExist : PrevExistType := .prevIgnore

/-- client.DeleteOptions, the two fields the wrapper sets. -/
structure DeleteOptions where
  dir : Bool := false
  recursive : Bool := false

/-- Modelled from the spec: get(key) against the store answers the node bound
to the key, or a not-found client error (code 100) when the key is absent. A
leaf answers its value with Dir false; a directory answers an empty value with
Dir true. -/
def storeGet (s : Store) (key : String) : Except GoError Response :=
  match storeLookup s key with
  | none => .error (.clientError ErrorCodeKeyNotFound ("Key not found " ++ key))
  | some (.leaf v) => .ok { node := .mk key v false [], index := 0 }
  | some (.dir _) => .ok { node := .mk key "" true [], index := 0 }

/-- Modelled from the spec: set(key, value, options) writes the key. With
PrevExist it requires the key to already exist and fails with a not-found
client error when it is absent; with PrevNoExist it requires the key to be
absent and fails with a node-exist client error (code 105) otherwise. A
successful set binds the key to a directory entry carrying the TTL of the
options when Dir is true, and to a leaf holding the value otherwise. Nil
options behave as the defaults. -/
def storeSet (s : Store) (key value : String) (options : Option SetOptions) :
    Except GoError Store :=
  let opts := options.getD {}
  match opts.prevExist, storeLookup s key with
  | .prevExist, none =>
      .error (.clientError ErrorCodeKeyNotFound ("Key not found " ++ key))
  | .prevNoExist, some _ =>
      .error (.clientError 105 ("Key already exists " ++ key))
  | _, _ =>
      .ok ((key, if opts.dir then Entry.dir opts.ttl else Entry.leaf value)
        :: storeRemove s key)

/-- Modelled from the spec: delete(key, options) removes the key, failing with
a not-found client error when it is absent. In this flat model the Dir and
Recursive options do not change the outcome. -/
def storeDelete (s : Store) (key : String) (_options : Option DeleteOptions) :
    Except GoError Store :=
  match storeLookup s key with
  | none => .error (.clientError ErrorCodeKeyNotFound ("Key not found " ++ key))
  | some _ => .ok (storeRemove s key)

/-- Get run against the store model: the body of Get applied to the result of
its api.Get call. Reads never change the store. -/
def getOp (s : Store) (key : String) : String × Option GoError :=
  Get (storeGet s key)

/-- Set run against the store model: api.Set with nil options, its error
returned unchanged; on failure the store is unchanged. -/
def setOp (s : Store) (key value : String) : Option GoError × Store :=
  match storeSet s key value none with
  | .ok s2 => (Set none, s2)
  | .error e => (Set (some e), s)

/-- UpdateDirWithTTL run against the store model: api.Set with TTL, Dir true
and PrevExist, its error returned unchanged. -/
def updateDirOp (s : Store) (key : String) (ttl : Nat) : Option GoError × Store :=
  match storeSet s key "" (some { ttl := some ttl, dir := true, prevExist := .prevExist }) with
  | .ok s2 => (UpdateDirWithTTL none, s2)
  | .error e => (UpdateDirWithTTL (some e), s)

/-- Del run against the store model: api.Delete with nil options, then the
error handling of Del. -/
def delOp (s : Store) (key : String) : Option GoError × Store :=
  match storeDelete s key none with
  | .ok s2 => (Del none, s2)
  | .error e => (Del (some e), s)

/-- DelDir run against the store model: api.Delete with Dir true and Recursive
true, then the error handling of DelDir. -/
def delDirOp (s : Store) (key : String) : Option GoError × Store :=
  match storeDelete s key (some { dir := true, recursive := true }) with
  | .ok s2 => (DelDir none, s2)
  | .error e => (DelDir (some e), s)

/-- MkDir from etcdclient.go lines 148-165 run against the store model,
keeping the control flow of the source: first api.Get on the directory; a
non-not-found error is returned; a not-found error triggers api.Set with Dir
true and PrevIgnore, whose error is returned; otherwise, if the node found is
not a directory, a descriptive error refuses to overwrite it, and if it is a
directory the call succeeds with no effect. -/
def MkDir (s : Store) (directory : String) : Option GoError × Store :=
  match storeGet s directory with
  | .error e =>
      if IsKeyNotFound e then
        match storeSet s directory "" (some { dir := true, prevExist := .prevIgnore }) with
        | .ok s2 => (none, s2)
        | .error e2 => (some e2, s)
      else (some e, s)
  | .ok results =>
      if results.node.dir then (none, s)
      else (some (.other ("Refusing to overwrite key/value with a directory: " ++ directory)), s)

/-- Number of requests one Get call issues to the store: its body makes
exactly one api.Get call on every path. -/
def getRequests (_s : Store) (_key : String) : Nat := 1

/-- Number of requests one Set call issues: exactly one api.Set call. -/
def setRequests (_s : Store) (_key _value : String) : Nat := 1

/-- Number of requests one UpdateDirWithTTL call issues: exactly one api.Set
call. -/
def updateDirRequests (_s : Store) (_key : String) (_ttl : Nat) : Nat := 1

/-- Number of requests one Del call issues: exactly one api.Delete call. -/
def delRequests (_s : Store) (_key : String) : Nat := 1

/-- Number of requests one DelDir call issues: exactly one api.Delete call. -/
def delDirRequests (_s : Store) (_key : String) : Nat := 1

/-- Number of requests one Ls call issues: exactly one api.Get call. -/
def lsRequests (_s : Store) (_directory : String) : Nat := 1

/-- Number of requests one LsRecursive call issues: exactly one api.Get
call. -/
def lsRecursiveRequests (_s : Store) (_directory : String) : Nat := 1

/-- Number of requests one MkDir call issues, following its control flow: the
api.Get call is always made; when that call reports not-found the body makes
a second request, the api.Set that creates the directory; on every other path
the api.Get is the only request. -/
def mkDirRequests (s : Store) (directory : String) : Nat :=
  match storeGet s directory with
  | .error e => if IsKeyNotFound e then 1 + 1 else 1
  | .ok _ => 1

/-- A concrete two-level store reply used to exercise the listing flattening:
a directory with a subdirectory holding one leaf, followed by a sibling
leaf. -/
def sampleTreeResponse : Response where
  node := Node.mk "/a" "" true
    [Node.mk "/a/b" "" true [Node.mk "/a/b/c" "v" false []],
      Node.mk "/a/d" "w" false []]
  index := 0

/-! ## Theorems -/

/-- C1: Get on a key absent from the store returns the empty string and no
error; the not-found reply is suppressed to an empty-value success rather
than surfaced as a failure. -/
theorem get_absent_empty_success (s : Store) (key : String)
    (h : storeLookup s key = none) : getOp s key = ("", none) := by
  simp [getOp, storeGet, h, Get, IsKeyNotFound, ErrorCodeKeyNotFound]

/-- C1 witness: on the empty store, Get of a missing key yields the empty
string and no error. -/
theorem get_absent_empty_success_witness :
    getOp ([] : Store) "/missing" = ("", none) :=
  get_absent_empty_success [] "/missing" rfl

/-- C6: after a successful Set of a value at a key, Get of that key returns
that value with no error. -/
theorem set_then_get (s : Store) (key value : String)
    (_h : (setOp s key value).1 = none) :
    getOp (setOp s key value).2 key = (value, none) := by
  simp [setOp, storeSet, storeLookup, getOp, storeGet, Get, Set, Node.value]

/-- C6 witness: setting and then getting a concrete key on the empty store
round-trips the value. -/
theorem set_then_get_witness :
    getOp (setOp ([] : Store) "/a" "1").2 "/a" = ("1", none) :=
  set_then_get [] "/a" "1" rfl

/-- C10: whenever the store reply is an error that is not suppressed as
not-found, Get returns the empty string alongside the error, and Ls and
LsRecursive return the empty list alongside the error. -/
theorem reads_zero_result_on_error (e : GoError)
    (h : IsKeyNotFound e = false) :
    Get (.error e) = ("", some e) ∧
    Ls (.error e) = ([], some e) ∧
    LsRecursive (.error e) = ([], some e) := by
  simp [Get, Ls, LsRecursive, h]

/-- C10 witness: a connectivity-style error flows through Get, Ls and
LsRecursive together with the zero result. -/
theorem reads_zero_result_on_error_witness :
    Get (.error (GoError.other "connection refused")) =
      ("", some (GoError.other "connection refused")) ∧
    Ls (.error (GoError.other "connection refused")) =
      ([], some (GoError.other "connection refused")) ∧
    LsRecursive (.error (GoError.other "connection refused")) =
      ([], some (GoError.other "connection refused")) :=
  reads_zero_result_on_error (GoError.other "connection refused") rfl

/-- C7: Del on an absent key and DelDir on an absent directory both return no
error, because the not-found reply of the store delete is suppressed to
success; any delete error that is not not-found is returned to the caller
unchanged by both. -/
theorem del_idempotent (s : Store) (key : String) :
    (storeLookup s key = none → (delOp s key).1 = none ∧ (delDirOp s key).1 = none) ∧
    (∀ e : GoError, IsKeyNotFound e = false →
      Del (some e) = some e ∧ DelDir (some e) = some e) := by
  constructor
  · intro h
    simp [delOp, delDirOp, storeDelete, h, Del, DelDir, IsKeyNotFound,
      ErrorCodeKeyNotFound]
  · intro e he
    simp [Del, DelDir, he]

/-- C7 witness: on the empty store both deletes of a missing key succeed, and
a non-not-found error passes through both delete bodies. -/
theorem del_idempotent_witness :
    ((delOp ([] : Store) "/gone").1 = none ∧ (delDirOp ([] : Store) "/gone").1 = none) ∧
    (Del (some (GoError.other "boom")) = some (GoError.other "boom") ∧
      DelDir (some (GoError.other "boom")) = some (GoError.other "boom")) :=
  ⟨(del_idempotent [] "/gone").1 rfl,
    (del_idempotent [] "/gone").2 (GoError.other "boom") rfl⟩

/-- C8: UpdateDirWithTTL requires the directory to already exist: on an
absent path it returns an error and leaves the store unchanged, while on an
existing directory it succeeds and rebinds the directory with the new TTL;
Set, in contrast, succeeds with no existence precondition. -/
theorem updateDir_requires_exists (s : Store) (key : String) (ttl : Nat) :
    (storeLookup s key = none →
      ((updateDirOp s key ttl).1.isSome = true ∧ (updateDirOp s key ttl).2 = s)) ∧
    (∀ t0 : Option Nat, storeLookup s key = some (Entry.dir t0) →
      ((updateDirOp s key ttl).1 = none ∧
        storeLookup (updateDirOp s key ttl).2 key = some (Entry.dir (some ttl)))) ∧
    (∀ value : String, (setOp s key value).1 = none) := by
  refine ⟨?_, ?_, ?_⟩
  · intro h
    simp [updateDirOp, storeSet, h, UpdateDirWithTTL]
  · intro t0 h
    simp [updateDirOp, storeSet, h, UpdateDirWithTTL, storeLookup]
  · intro value
    simp [setOp, storeSet, Set]

/-- C8 witness: on a store holding one directory, the TTL update succeeds and
refreshes the TTL; on the empty store it fails and changes nothing; Set needs
no precondition. -/
theorem updateDir_requires_exists_witness :
    ((updateDirOp ([] : Store) "/d" 30).1.isSome = true ∧
      (updateDirOp ([] : Store) "/d" 30).2 = ([] : Store)) ∧
    ((updateDirOp [("/d", Entry.dir none)] "/d" 30).1 = none ∧
      storeLookup (updateDirOp [("/d", Entry.dir none)] "/d" 30).2 "/d" =
        some (Entry.dir (some 30))) ∧
    (setOp ([] : Store) "/d" "v").1 = none :=
  ⟨(updateDir_requires_exists [] "/d" 30).1 rfl,
    (updateDir_requires_exists [("/d", Entry.dir none)] "/d" 30).2.1 none rfl,
    (updateDir_requires_exists [] "/d" 30).2.2 "v"⟩

/-- The flattening the source performs agrees with the spec-side depth-first
pre-order of the forest. -/
theorem nodesToStringSlice_eq_preorderForest (nodes : List Node) :
    nodesToStringSlice nodes = preorderForest nodes := by
  induction nodes using nodesToStringSlice.induct with
  | case1 => simp [nodesToStringSlice, preorderForest]
  | case2 k v d ns rest ih1 ih2 =>
      simp [nodesToStringSlice, preorderForest, preorderNode, ih1, ih2]

/-- C4: LsRecursive flattens the tree the store returns into depth-first
pre-order — the source flattening coincides with the spec-side pre-order, a
successful reply yields the pre-order keys of all descendants of the
directory with no error, a not-found reply yields the empty list with no
error, and the request asks the store for a sorted recursive subtree, so each
level arrives sorted. -/
theorem lsRecursive_preorder_flatten :
    (∀ nodes : List Node, nodesToStringSlice nodes = preorderForest nodes) ∧
    (∀ r : Response, LsRecursive (.ok r) = (preorderForest r.node.nodes, none)) ∧
    (∀ e : GoError, IsKeyNotFound e = true → LsRecursive (.error e) = ([], none)) ∧
    (lsRecursiveOptions.sort = true ∧ lsRecursiveOptions.recursive = true) := by
  refine ⟨nodesToStringSlice_eq_preorderForest, ?_, ?_, rfl, rfl⟩
  · intro r
    simp [LsRecursive, nodesToStringSlice_eq_preorderForest]
  · intro e he
    simp [LsRecursive, he]

/-- C4 witness: on a concrete two-level tree the flattening is the pre-order
key list, and a not-found reply gives the empty list with no error. -/
theorem lsRecursive_preorder_flatten_witness :
    LsRecursive (.ok sampleTreeResponse) =
      (preorderForest sampleTreeResponse.node.nodes, none) ∧
    preorderForest sampleTreeResponse.node.nodes = ["/a/b", "/a/b/c", "/a/d"] ∧
    LsRecursive (.error (GoError.clientError 100 "nf")) = ([], none) :=
  ⟨lsRecursive_preorder_flatten.2.1 sampleTreeResponse,
    by simp [sampleTreeResponse, preorderForest, preorderNode, Node.nodes],
    lsRecursive_preorder_flatten.2.2.1 (GoError.clientError 100 "nf") rfl⟩

/-- If the watch loop returned an error, that error was not ignorable and was
one of the results the watcher delivered. -/
theorem watchLoop_returned_mem (events : List (Except GoError Response)) :
    ∀ (a : Nat) (cs : List (String × String)) (e : GoError),
      watchLoop events a cs = .returned e →
      shouldIgnoreError e = false ∧ Except.error e ∈ events := by
  induction events with
  | nil =>
      intro a cs e h
      simp [watchLoop] at h
  | cons x rest ih =>
      intro a cs e h
      match x with
      | .error e2 =>
          by_cases hig : shouldIgnoreError e2
          · rw [watchLoop, if_pos hig] at h
            have := ih a cs e h
            exact ⟨this.1, List.mem_cons_of_mem _ this.2⟩
          · rw [watchLoop, if_neg hig] at h
            cases h
            exact ⟨Bool.eq_false_iff.mpr hig, List.mem_cons_self _ _⟩
      | .ok r =>
          rw [watchLoop] at h
          have := ih r.index (cs ++ [(r.node.key, r.node.value)]) e h
          exact ⟨this.1, List.mem_cons_of_mem _ this.2⟩

/-- If the watch loop ran through a prefix of delivered results without
returning, appending one more successful event advances the cursor to the
index of that event and invokes the callback once with its key and value. -/
theorem watchLoop_append_ok (events : List (Except GoError Response)) :
    ∀ (a : Nat) (cs : List (String × String)) (a2 : Nat)
      (cs2 : List (String × String)) (r : Response),
      watchLoop events a cs = .running a2 cs2 →
      watchLoop (events ++ [Except.ok r]) a cs =
        .running r.index (cs2 ++ [(r.node.key, r.node.value)]) := by
  induction events with
  | nil =>
      intro a cs a2 cs2 r h
      rw [watchLoop] at h
      cases h
      simp [watchLoop]
  | cons x rest ih =>
      intro a cs a2 cs2 r h
      match x with
      | .error e =>
          by_cases hig : shouldIgnoreError e
          · rw [watchLoop, if_pos hig] at h
            rw [List.cons_append, watchLoop, if_pos hig]
            exact ih a cs a2 cs2 r h
          · rw [watchLoop, if_neg hig] at h
            cases h
      | .ok r2 =>
          rw [watchLoop] at h
          rw [List.cons_append, watchLoop]
          exact ih r2.index (cs ++ [(r2.node.key, r2.node.value)]) a2 cs2 r h

/-- C2: the watch loop returns only on an unrecoverable error: whenever it
returns, the returned error is one the watcher delivered, verbatim, and is
not the ignorable kind; an error carrying the event-index-cleared code makes
the loop silently retry with its cursor and delivered calls unchanged; any
non-ignorable error at the head of the stream terminates the loop and is
returned; and the ignorable kind is exactly a client error whose code is
ErrorCodeEventIndexCleared. -/
theorem watch_returns_only_unrecoverable (events : List (Except GoError Response))
    (a : Nat) (cs : List (String × String)) (e : GoError) :
    (watchLoop events a cs = .returned e →
      shouldIgnoreError e = false ∧ Except.error e ∈ events) ∧
    (shouldIgnoreError e = true →
      watchLoop (Except.error e :: events) a cs = watchLoop events a cs) ∧
    (shouldIgnoreError e = false →
      watchLoop (Except.error e :: events) a cs = .returned e) ∧
    (shouldIgnoreError e = true ↔
      ∃ m : String, e = GoError.clientError ErrorCodeEventIndexCleared m) := by
  refine ⟨watchLoop_returned_mem events a cs e, ?_, ?_, ?_⟩
  · intro hig
    rw [watchLoop, if_pos hig]
  · intro hig
    rw [watchLoop, if_neg (Bool.eq_false_iff.mp hig)]
  · cases e with
    | clientError code m => simp [shouldIgnoreError, ErrorCodeEventIndexCleared]
    | other m => simp [shouldIgnoreError]

/-- C2 witness: a non-client error returned by the loop is non-ignorable and
came from the stream; an event-index-cleared error is skipped with state
unchanged; a plain error at the head terminates the loop with that error. -/
theorem watch_returns_only_unrecoverable_witness :
    (shouldIgnoreError (GoError.other "boom") = false ∧
      Except.error (GoError.other "boom") ∈
        ([Except.error (GoError.clientError 401 "cleared"),
          Except.error (GoError.other "boom")] : List (Except GoError Response))) ∧
    watchLoop [Except.error (GoError.clientError 401 "cleared")] 0 [] =
      watchLoop [] 0 [] ∧
    watchLoop [Except.error (GoError.other "boom")] 0 [] =
      .returned (GoError.other "boom") :=
  ⟨(watch_returns_only_unrecoverable
      [Except.error (GoError.clientError 401 "cleared"),
        Except.error (GoError.other "boom")] 0 [] (GoError.other "boom")).1 rfl,
    (watch_returns_only_unrecoverable [] 0 []
      (GoError.clientError 401 "cleared")).2.1 rfl,
    (watch_returns_only_unrecoverable [] 0 []
      (GoError.other "boom")).2.2.1 rfl⟩

/-- C3: the watch cursor starts at 0, and after every successfully delivered
event — before the next wait — the cursor equals the index of that event,
with the callback invoked exactly once more, on the key and new value of the
event. -/
theorem watch_cursor_advances :
    WatchRecursive [] = .running 0 [] ∧
    ∀ (events : List (Except GoError Response)) (r : Response) (a2 : Nat)
      (cs2 : List (String × String)),
      WatchRecursive events = .running a2 cs2 →
      WatchRecursive (events ++ [Except.ok r]) =
        .running r.index (cs2 ++ [(r.node.key, r.node.value)]) := by
  refine ⟨rfl, ?_⟩
  intro events r a2 cs2 h
  exact watchLoop_append_ok events 0 [] a2 cs2 r h

/-- C3 witness: from an empty history the cursor is 0; delivering one
concrete event advances the cursor to the index of the event and records a
single callback invocation with its key and value. -/
theorem watch_cursor_advances_witness :
    WatchRecursive [Except.ok { node := Node.mk "/a/x" "v" false [], index := 7 }] =
      .running 7 [("/a/x", "v")] :=
  watch_cursor_advances.2 [] { node := Node.mk "/a/x" "v" false [], index := 7 }
    0 [] watch_cursor_advances.1

/-- C5: MkDir on an absent path succeeds and creates the path as an empty
directory, and a second call on the same path also succeeds and leaves the
store unchanged; MkDir on an existing directory succeeds with no effect; and
MkDir on an existing leaf returns the descriptive type-conflict error and
leaves the store, including the leaf value, unchanged. -/
theorem mkDir_policy (s : Store) (d : String) :
    (storeLookup s d = none →
      ((MkDir s d).1 = none ∧
        storeLookup (MkDir s d).2 d = some (Entry.dir none) ∧
        MkDir (MkDir s d).2 d = (none, (MkDir s d).2))) ∧
    (∀ t : Option Nat, storeLookup s d = some (Entry.dir t) →
      MkDir s d = (none, s)) ∧
    (∀ v : String, storeLookup s d = some (Entry.leaf v) →
      ((MkDir s d).1 =
          some (.other ("Refusing to overwrite key/value with a directory: " ++ d)) ∧
        (MkDir s d).2 = s)) := by
  refine ⟨?_, ?_, ?_⟩
  · intro h
    simp [MkDir, storeGet, h, IsKeyNotFound, ErrorCodeKeyNotFound, storeSet,
      storeLookup, Node.dir]
  · intro t h
    simp [MkDir, storeGet, h, Node.dir]
  · intro v h
    simp [MkDir, storeGet, h, Node.dir]

/-- C5 witness: on the empty store MkDir creates the directory and is
idempotent; on a store holding a leaf at the path it returns the descriptive
error and leaves the store unchanged. -/
theorem mkDir_policy_witness :
    ((MkDir ([] : Store) "/d").1 = none ∧
      storeLookup (MkDir ([] : Store) "/d").2 "/d" = some (Entry.dir none) ∧
      MkDir (MkDir ([] : Store) "/d").2 "/d" = (none, (MkDir ([] : Store) "/d").2)) ∧
    ((MkDir [("/d", Entry.leaf "x")] "/d").1 =
        some (.other ("Refusing to overwrite key/value with a directory: " ++ "/d")) ∧
      (MkDir [("/d", Entry.leaf "x")] "/d").2 = [("/d", Entry.leaf "x")]) :=
  ⟨(mkDir_policy [] "/d").1 rfl,
    (mkDir_policy [("/d", Entry.leaf "x")] "/d").2.2 "x" rfl⟩

/-- C9 counterexample: MkDir on an absent path issues two requests to the
store — the read and then the conditional create — not exactly one. -/
theorem mkDir_two_requests_counterexample :
    mkDirRequests ([] : Store) "/a" = 2 ∧ (2 : Nat) ≠ 1 := by
  constructor
  · rfl
  · decide

/-- C9 (amended): every public operation other than WatchRecursive and MkDir
issues exactly one request to the store per call; MkDir issues one request
when the path is present and two — a read followed by a conditional create —
when the path is absent. -/
theorem requests_per_call (s : Store) (key value d : String) (ttl : Nat) :
    getRequests s key = 1 ∧
    setRequests s key value = 1 ∧
    updateDirRequests s key ttl = 1 ∧
    delRequests s key = 1 ∧
    delDirRequests s key = 1 ∧
    lsRequests s d = 1 ∧
    lsRecursiveRequests s d = 1 ∧
    (storeLookup s d = none → mkDirRequests s d = 2) ∧
    (∀ ent : Entry, storeLookup s d = some ent → mkDirRequests s d = 1) := by
  refine ⟨rfl, rfl, rfl, rfl, rfl, rfl, rfl, ?_, ?_⟩
  · intro h
    simp [mkDirRequests, storeGet, h, IsKeyNotFound, ErrorCodeKeyNotFound]
  · intro ent h
    cases ent with
    | leaf v => simp [mkDirRequests, storeGet, h]
    | dir t => simp [mkDirRequests, storeGet, h]

/-- C9 witness: the amended request counts at concrete inputs — one request
per simple operation, two for MkDir on an absent path, one for MkDir on a
present path. -/
theorem requests_per_call_witness :
    getRequests ([] : Store) "/k" = 1 ∧
    mkDirRequests ([] : Store) "/d" = 2 ∧
    mkDirRequests [("/d", Entry.dir none)] "/d" = 1 :=
  ⟨(requests_per_call [] "/k" "v" "/d" 1).1,
    (requests_per_call [] "/k" "v" "/d" 1).2.2.2.2.2.2.2.1 rfl,
    (requests_per_call [("/d", Entry.dir none)] "/k" "v" "/d" 1).2.2.2.2.2.2.2.2
      (Entry.dir none) rfl⟩

end EtcdSimple
